import Mathlib

/-!
Verification of the sensor data stream reader of the road-vision repository
(`src/road_vision_agent/src/file_datasource.py`), a shallow embedding of
`FileDatasource` and its methods over lists of CSV rows.

A backing CSV file is modelled as a `List Row` (`Row := List String`), the
abstraction level the `csv.reader` iterator presents to the Python code.  A
reader (iterator) is the list of rows not yet consumed.  File handles are
modelled as `Option Unit` (acquired or not), and availability of the file on
disk as a `Bool` flag, so `open()` raising `FileNotFoundError` becomes a
`sourceUnavailable` error.  The unbounded recursion of `_next_row` is given
explicit fuel: a `none` result means the recursion does not terminate within
the given depth (for every fuel value, in the divergence theorems below).
-/

namespace RoadVision

/-- A CSV row: the ordered list of text fields `csv.reader` yields for one line. -/
abbrev Row := List String

/-- Modelled from the spec: the agent imports `domain.accelerometer`, which is
not under `src/`; spec section 3 defines an integer triple `(x, y, z)`. -/
structure Accelerometer where
  x : Int
  y : Int
  z : Int
deriving DecidableEq, Repr

/-- Modelled from the spec: the agent imports `domain.gps`, which is not under
`src/`; spec section 3 defines a floating-point pair `(longitude, latitude)`.
Finite float values are carried as rationals; the claims never depend on
non-finite float values. -/
structure Gps where
  longitude : ℚ
  latitude : ℚ
deriving DecidableEq, Repr

/-- Modelled from the spec: the agent imports `domain.aggregated_data`, which
is not under `src/`; spec section 3 defines one accelerometer sample plus one
GPS sample plus a timestamp.  The wall-clock timestamp
(`datetime.utcnow()`) is outside the embedding and carried as `Unit`. -/
structure AggregatedData where
  accelerometer : Accelerometer
  gps : Gps
  time : Unit
deriving DecidableEq, Repr

/-- Error kinds of the stream reader, in the spec's vocabulary:
`sourceUnavailable` is `FileNotFoundError` out of `open()`;
`malformedRecord` is the `ValueError` or `IndexError` out of the
`int()` and `float()` conversions in `read()`. -/
inductive DataError
  | sourceUnavailable
  | malformedRecord
deriving DecidableEq, Repr

/-- Which channel a `_next_row` call serves (the `source` string argument). -/
inductive Source
  | acc
  | gps
deriving DecidableEq, Repr

/-- The other channel. -/
def otherSource : Source → Source
  | .acc => .gps
  | .gps => .acc

/-- State of a `FileDatasource` object together with the file system facts it
interacts with: whether each backing file can be opened (`acc_avail`,
`gps_avail`), the rows each file contains (`acc_src`, `gps_src`), and the four
nullable fields of the Python object (`_acc_file`, `_gps_file`,
`_acc_reader`, `_gps_reader`).  A reader holds the rows not yet consumed. -/
structure FileDatasource where
  acc_avail : Bool
  gps_avail : Bool
  acc_src : List Row
  gps_src : List Row
  acc_file : Option Unit
  gps_file : Option Unit
  acc_reader : Option (List Row)
  gps_reader : Option (List Row)
deriving DecidableEq, Repr

/-- Contents of the backing file of a channel. -/
def srcOf (ds : FileDatasource) : Source → List Row
  | .acc => ds.acc_src
  | .gps => ds.gps_src

/-- The reader (remaining rows) of a channel, `none` when the field is `None`. -/
def readerOf (ds : FileDatasource) : Source → Option (List Row)
  | .acc => ds.acc_reader
  | .gps => ds.gps_reader

/-- Replace the reader of one channel (consuming via `next` on the Python
iterator advances exactly that channel's remaining-row list). -/
def setReader (ds : FileDatasource) : Source → List Row → FileDatasource
  | .acc, l => { ds with acc_reader := some l }
  | .gps, l => { ds with gps_reader := some l }

/-- Expected column count per channel (3 for accelerometer, 2 for GPS),
as passed to `_skip_header_if_present` in `_open_files`. -/
def expectedCols : Source → Nat
  | .acc => 3
  | .gps => 2

/-- The whitespace characters Python `str.strip()` removes by default
(space, tab, newline, carriage return, vertical tab, form feed). -/
def isSpaceChar (c : Char) : Bool :=
  c = ' ' || c = '\t' || c = '\n' || c = '\r' || c = '\x0b' || c = '\x0c'

/-- Python `str.strip()` on the character list of a string. -/
def stripChars (l : List Char) : List Char :=
  ((l.dropWhile isSpaceChar).reverse.dropWhile isSpaceChar).reverse

/-- `len(row) == 0 or all(not c.strip() for c in row)`: the blank-row test in
`_next_row`. -/
def isBlankRow (r : Row) : Bool :=
  r.isEmpty || r.all (fun c => (stripChars c.toList).isEmpty)

/-- Digits possibly separated by single underscores, continuing a digit run
(tail of a Python numeric literal group after its first digit). -/
def digitTail : List Char → Bool
  | [] => true
  | '_' :: rest =>
    match rest with
    | [] => false
    | d :: rest2 => d.isDigit && digitTail rest2
  | d :: rest => d.isDigit && digitTail rest

/-- A nonempty digit sequence with optional single underscores between digits,
as Python `int()` and `float()` accept for each digit group. -/
def digitSeq : List Char → Bool
  | [] => false
  | d :: rest => d.isDigit && digitTail rest

/-- Numeric value of a digit sequence, ignoring underscores. -/
def digitsVal (l : List Char) : Nat :=
  (l.filter Char.isDigit).foldl (fun n c => 10 * n + (c.toNat - 48)) 0

/-- Model of Python `int(str)`: optional surrounding whitespace, optional
sign, then a digit sequence.  (Non-ASCII digit forms are outside the model.) -/
def int_of_string (s : String) : Option Int :=
  let cs := stripChars s.toList
  match cs with
  | '+' :: rest => if digitSeq rest then some ((digitsVal rest : Nat) : Int) else none
  | '-' :: rest => if digitSeq rest then some (-((digitsVal rest : Nat) : Int)) else none
  | _ => if digitSeq cs then some ((digitsVal cs : Nat) : Int) else none

/-- Split a character list at the first `e` or `E` (exponent marker). -/
def splitExp : List Char → List Char × Option (List Char)
  | [] => ([], none)
  | c :: cs =>
    if c = 'e' || c = 'E' then ([], some cs)
    else
      let p := splitExp cs
      (c :: p.1, p.2)

/-- Split a character list at the first dot. -/
def splitDot : List Char → List Char × Option (List Char)
  | [] => ([], none)
  | c :: cs =>
    if c = '.' then ([], some cs)
    else
      let p := splitDot cs
      (c :: p.1, p.2)

/-- Validity of the mantissa part of a Python float literal:
`digits`, `digits.`, `digits.digits` or `.digits`. -/
def mantissaOk (m : List Char) : Bool :=
  match splitDot m with
  | (ip, none) => digitSeq ip
  | (ip, some fp) =>
    if fp.contains '.' then false
    else if ip.isEmpty then digitSeq fp
    else digitSeq ip && (fp.isEmpty || digitSeq fp)

/-- Validity of an exponent part: optional sign then a digit sequence. -/
def expTailOk : List Char → Bool
  | '+' :: r => digitSeq r
  | '-' :: r => digitSeq r
  | r => digitSeq r

/-- Model of the domain of Python `float(str)`: optional surrounding
whitespace, optional sign, then a finite literal (mantissa with optional
exponent) or `inf`, `infinity`, `nan` in any letter case. -/
def float_ok (s : String) : Bool :=
  let cs := stripChars s.toList
  let body := match cs with
    | '+' :: r => r
    | '-' :: r => r
    | r => r
  let low := body.map Char.toLower
  if low == "inf".toList || low == "infinity".toList || low == "nan".toList then true
  else
    match splitExp body with
    | (m, none) => mantissaOk m
    | (m, some e) => mantissaOk m && expTailOk e

/-- Rational value of a finite Python float literal (sign, integer part,
fractional part, exponent).  Non-finite literals collapse to `0`; no claim
depends on their value, only on `float_ok` accepting them. -/
def float_val (s : String) : ℚ :=
  let cs := stripChars s.toList
  let sgn : ℚ := match cs with
    | '-' :: _ => -1
    | _ => 1
  let body := match cs with
    | '+' :: r => r
    | '-' :: r => r
    | r => r
  let p := splitExp body
  let e : Int := match p.2 with
    | none => 0
    | some ec =>
      match ec with
      | '+' :: r => ((digitsVal r : Nat) : Int)
      | '-' :: r => -((digitsVal r : Nat) : Int)
      | r => ((digitsVal r : Nat) : Int)
  let q := splitDot p.1
  let fp := q.2.getD []
  let base : ℚ :=
    ((digitsVal q.1 : Nat) : ℚ) +
      ((digitsVal fp : Nat) : ℚ) / ((10 : ℚ) ^ (fp.filter Char.isDigit).length)
  sgn * base * (10 : ℚ) ^ e

/-- Model of Python `float(str)` as a fallible parse. -/
def float_of_string (s : String) : Option ℚ :=
  if float_ok s then some (float_val s) else none

/-- Embeds `FileDatasource._skip_header_if_present`.  `peek = next(csv_reader)`
consumes the first remaining row; on `StopIteration` the function returns with
nothing consumed.  Every later branch returns with the peeked row consumed:
the wrong-width branch returns directly, and in the width-matching branch both
the header case and the numeric-data case end in `return` (the `raise
ValueError` meant to signal the numeric case is caught by the enclosing
`except Exception`). -/
def skip_header_if_present (rows : List Row) (expected_cols : Nat) : List Row :=
  match rows with
  | [] => rows
  | peek :: rest =>
    if peek.length ≠ expected_cols then
      rest
    else if float_ok (peek.headD "") then
      rest
    else
      rest

/-- Embeds `FileDatasource._close_files`: close any handles, null all fields. -/
def close_files (ds : FileDatasource) : FileDatasource :=
  { ds with acc_file := none, gps_file := none, acc_reader := none, gps_reader := none }

/-- Embeds `FileDatasource._open_files`: close, open the accelerometer file,
open the GPS file, create both readers, then run header detection on each
(3 expected columns for accelerometer, 2 for GPS).  A failing `open()` raises
with the state as mutated so far. -/
def open_files (ds : FileDatasource) : Except (DataError × FileDatasource) FileDatasource :=
  let d0 := close_files ds
  if d0.acc_avail then
    let d1 := { d0 with acc_file := some () }
    if d1.gps_avail then
      let d2 := { d1 with gps_file := some (),
                          acc_reader := some d1.acc_src,
                          gps_reader := some d1.gps_src }
      let d3 := { d2 with acc_reader := some (skip_header_if_present d2.acc_src 3),
                          gps_reader := some (skip_header_if_present d2.gps_src 2) }
      .ok d3
    else .error (.sourceUnavailable, d1)
  else .error (.sourceUnavailable, d0)

/-- Embeds `FileDatasource.startReading` (extra arguments are ignored). -/
def startReading (ds : FileDatasource) : Except (DataError × FileDatasource) FileDatasource :=
  open_files ds

/-- Embeds `FileDatasource.stopReading`. -/
def stopReading (ds : FileDatasource) : FileDatasource :=
  close_files ds

/-- The `row = next(csv_reader)` plus blank-skipping `while` loop inside the
`try` of `_next_row`: first non-blank row and the rows after it, or `none`
when `StopIteration` escapes (no non-blank row remains). -/
def takeNonBlank : List Row → Option (Row × List Row)
  | [] => none
  | r :: rest => if isBlankRow r then takeNonBlank rest else some (r, rest)

/-- Embeds `FileDatasource._next_row`.  On exhaustion it calls
`self._open_files()` (re-opening BOTH files) and recurses on the fresh reader
of its own channel.  The recursion is unbounded in the source; `fuel` bounds
it here, and a `none` result means no answer within that depth. -/
def next_row : Nat → FileDatasource → Source → Option (Except (DataError × FileDatasource) (Row × FileDatasource))
  | 0, _, _ => none
  | fuel + 1, ds, s =>
    match readerOf ds s with
    | none => none
    | some l =>
      match takeNonBlank l with
      | some (r, rest) => some (.ok (r, setReader ds s rest))
      | none =>
        match open_files ds with
        | .error e => some (.error e)
        | .ok d2 => next_row fuel d2 s

/-- The `int(acc_row[0]), int(acc_row[1]), int(acc_row[2])` conversions of
`read()`: `IndexError` (fewer than 3 fields) and `ValueError` (a field that
is not an integer literal) both make the conversion fail. -/
def parse_acc_row (r : Row) : Option (Int × Int × Int) :=
  match r with
  | x :: y :: z :: _ =>
    match int_of_string x, int_of_string y, int_of_string z with
    | some a, some b, some c => some (a, b, c)
    | _, _, _ => none
  | _ => none

/-- The `float(gps_row[0]), float(gps_row[1])` conversions of `read()`. -/
def parse_gps_row (r : Row) : Option (ℚ × ℚ) :=
  match r with
  | lon :: lat :: _ =>
    match float_of_string lon, float_of_string lat with
    | some a, some b => some (a, b)
    | _, _ => none
  | _ => none

/-- Embeds `FileDatasource.read`: lazily open if either reader is `None`,
fetch one accelerometer row then one GPS row, convert fields, and assemble an
`AggregatedData`.  Conversion failures raise after both rows are consumed, so
the error carries the advanced state. -/
def read (fuel : Nat) (ds : FileDatasource) :
    Option (Except (DataError × FileDatasource) (AggregatedData × FileDatasource)) :=
  let init : Except (DataError × FileDatasource) FileDatasource :=
    if ds.acc_reader.isNone || ds.gps_reader.isNone then open_files ds else .ok ds
  match init with
  | .error e => some (.error e)
  | .ok d0 =>
    match next_row fuel d0 .acc with
    | none => none
    | some (.error e) => some (.error e)
    | some (.ok (acc_row, d1)) =>
      match next_row fuel d1 .gps with
      | none => none
      | some (.error e) => some (.error e)
      | some (.ok (gps_row, d2)) =>
        match parse_acc_row acc_row with
        | none => some (.error (.malformedRecord, d2))
        | some xyz =>
          match parse_gps_row gps_row with
          | none => some (.error (.malformedRecord, d2))
          | some ll =>
            some (.ok (⟨⟨xyz.1, xyz.2.1, xyz.2.2⟩, ⟨ll.1, ll.2⟩, ()⟩, d2))

/-- The row delivered by the k-th of k successive `_next_row` calls on one
channel (each call with the given recursion depth), together with the state
after it; `none` if any call fails or exceeds the depth. -/
def nthFetch (fuel : Nat) : Nat → FileDatasource → Source → Option (Row × FileDatasource)
  | 0, _, _ => none
  | 1, ds, s =>
    match next_row fuel ds s with
    | some (.ok p) => some p
    | _ => none
  | k + 2, ds, s =>
    match next_row fuel ds s with
    | some (.ok (_, ds2)) => nthFetch fuel (k + 1) ds2 s
    | _ => none

/-- `withBlanks rows bs` inserts, strictly between consecutive rows of `rows`,
the successive blocks of `bs`: no block before the first row and none after
the last. -/
def withBlanks : List Row → List (List Row) → List Row
  | [], _ => []
  | r :: rs, bs =>
    match rs, bs with
    | [], _ => [r]
    | _ :: _, [] => r :: withBlanks rs []
    | _ :: _, b :: bs2 => r :: (b ++ withBlanks rs bs2)

/-- A datasource whose accelerometer file starts with the numeric data row
`1,2,3` followed by `4,5,6` (no header), both files present, not yet open. -/
def dsC1 : FileDatasource :=
  ⟨true, true, [["1","2","3"],["4","5","6"]], [["1.5","2.5"],["3.5","4.5"]], none, none, none, none⟩

/-- Rows delivered by the first and second accelerometer `_next_row` calls
after `startReading` on `dsC1`. -/
def runC1 : Option (Option Row × Option Row) :=
  match startReading dsC1 with
  | .ok d => some ((nthFetch 5 1 d .acc).map Prod.fst, (nthFetch 5 2 d .acc).map Prod.fst)
  | .error _ => none

/-- A datasource whose accelerometer file holds one data row after the
consumed first row, while the GPS file holds three. -/
def dsC2 : FileDatasource :=
  ⟨true, true, [["0","0","0"],["1","1","1"]],
    [["0","0"],["1","1"],["2","2"],["3","3"]], none, none, none, none⟩

/-- Alternating accelerometer/GPS fetches on `dsC2`, as `read()` performs
them: the two GPS rows delivered while the accelerometer channel wraps,
together with the second GPS row as delivered when only the GPS channel is
read (the accelerometer channel never wrapping). -/
def runC2 : Option ((Option Row × Option Row) × Option Row) :=
  match startReading dsC2 with
  | .error _ => none
  | .ok d =>
    let pureGps := (nthFetch 5 2 d .gps).map Prod.fst
    match next_row 5 d .acc with
    | some (.ok (_, d1)) =>
      match next_row 5 d1 .gps with
      | some (.ok (g1, d2)) =>
        match next_row 5 d2 .acc with
        | some (.ok (_, d3)) =>
          match next_row 5 d3 .gps with
          | some (.ok (g2, _)) => some ((some g1, some g2), pureGps)
          | _ => none
        | _ => none
      | _ => none
    | _ => none

/-- A datasource whose GPS file holds exactly `N = 2` non-empty rows. -/
def dsC3 : FileDatasource :=
  ⟨true, true, [["0","0","0"],["5","5","5"]], [["1","2"],["3","4"]], none, none, none, none⟩

/-- The rows delivered by the 1st and the 3rd (`N + 1`-th) GPS fetches on
`dsC3` after `startReading`. -/
def runC3 : Option (Option Row × Option Row) :=
  match startReading dsC3 with
  | .ok d => some ((nthFetch 5 1 d .gps).map Prod.fst, (nthFetch 5 3 d .gps).map Prod.fst)
  | .error _ => none

/-- A datasource whose accelerometer file exists but whose GPS file does not. -/
def dsC4 : FileDatasource :=
  ⟨true, false, [["1","2","3"]], [["1","2"]], none, none, none, none⟩

/-- Error kind and handle fields after `startReading` fails on `dsC4`. -/
def runC4 : Option (DataError × Option Unit × Option Unit) :=
  match startReading dsC4 with
  | .error (e, d) => some (e, d.acc_file, d.gps_file)
  | .ok _ => none

/-- A datasource whose accelerometer file starts with a 2-field row (field
count differing from the 3 expected columns) followed by a 3-field data row. -/
def dsC8 : FileDatasource :=
  ⟨true, true, [["1","2"],["7","8","9"]], [["1","2"],["3","4"]], none, none, none, none⟩

/-- The row delivered by the first accelerometer fetch on `dsC8`. -/
def runC8 : Option (Option Row) :=
  match startReading dsC8 with
  | .ok d => some ((nthFetch 5 1 d .acc).map Prod.fst)
  | .error _ => none

/-- A datasource whose accelerometer file yields a malformed (2-field) row on
the first read, and whose GPS file holds a single data row `3,4` after the
consumed first row. -/
def dsC10 : FileDatasource :=
  ⟨true, true, [["9","9","9"],["1","2"],["1","2","3"],["4","5","6"]],
    [["0","0"],["3","4"]], none, none, none, none⟩

/-- Two successive `read()` calls on `dsC10`: the outcome of the first
(expected: malformed record, with the GPS reader already drained past `3,4`)
and the reading delivered by the second. -/
def runC10 : Option ((DataError × Option (List Row)) × Option AggregatedData) :=
  match read 6 dsC10 with
  | some (.error (e, d1)) =>
    match read 6 d1 with
    | some (.ok (a, _)) => some ((e, d1.gps_reader), some a)
    | _ => some ((e, d1.gps_reader), none)
  | _ => none

/-- An open datasource whose accelerometer reader is exhausted while the GPS
reader has already been fully consumed. -/
def wds2 : FileDatasource :=
  ⟨true, true, [["0","0","0"],["7","7","7"]], [["0","0"],["8","8"]],
    some (), some (), some [], some []⟩

/-- The state after one accelerometer `_next_row` call on `wds2`: the wrap
re-opened both files, so the GPS reader was reset to just past row 0. -/
def wd2out : FileDatasource :=
  ⟨true, true, [["0","0","0"],["7","7","7"]], [["0","0"],["8","8"]],
    some (), some (), some [], some [["8","8"]]⟩

/-- An open datasource whose GPS file holds 3 non-blank rows, reader just
past the first. -/
def wds3 : FileDatasource :=
  ⟨true, true, [["0","0","0"]], [["1","1"],["2","2"],["3","3"]],
    some (), some (), some [], some [["2","2"],["3","3"]]⟩

/-- An open datasource about to deliver a 2-field accelerometer row. -/
def wds5 : FileDatasource :=
  ⟨true, true, [["9","9","9"],["1","2"]], [["8","8"],["3","4"]],
    some (), some (), some [["1","2"]], some [["3","4"]]⟩

/-- `wds5` after fetching the accelerometer row. -/
def wd5a : FileDatasource :=
  ⟨true, true, [["9","9","9"],["1","2"]], [["8","8"],["3","4"]],
    some (), some (), some [], some [["3","4"]]⟩

/-- `wd5a` after fetching the GPS row. -/
def wd5b : FileDatasource :=
  ⟨true, true, [["9","9","9"],["1","2"]], [["8","8"],["3","4"]],
    some (), some (), some [], some []⟩

/-- An open datasource whose accelerometer file holds a single
whitespace-only row. -/
def wds6 : FileDatasource :=
  ⟨true, true, [[" "]], [["9","9"]], some (), some (), some [[" "]], some [["9","9"]]⟩

/-- An open datasource over the plain two-row accelerometer source. -/
def wds7a : FileDatasource :=
  ⟨true, true, [["1","2"],["3","4"]], [["9","9"]],
    some (), some (), some [["3","4"]], some []⟩

/-- An open datasource over the same source with two blank rows inserted
between the data rows. -/
def wds7b : FileDatasource :=
  ⟨true, true, [["1","2"],[""],[" "],["3","4"]], [["9","9"]],
    some (), some (), some [[""],[" "],["3","4"]], some []⟩

/-- The state `startReading` produces on `dsC8`. -/
def wd8 : FileDatasource :=
  ⟨true, true, [["1","2"],["7","8","9"]], [["1","2"],["3","4"]],
    some (), some (), some [["7","8","9"]], some [["3","4"]]⟩

/-- A fresh datasource whose files exist but hold zero rows. -/
def wds9 : FileDatasource :=
  ⟨true, true, [], [], none, none, none, none⟩

/-- The state `startReading` produces on `wds9`. -/
def wd9 : FileDatasource :=
  ⟨true, true, [], [], some (), some (), some [], some []⟩

/-- An open datasource about to deliver a non-numeric accelerometer row while
two GPS rows remain. -/
def wds10 : FileDatasource :=
  ⟨true, true, [["9","9","9"],["x","2","3"]], [["8","8"],["3","4"],["5","6"]],
    some (), some (), some [["x","2","3"]], some [["3","4"],["5","6"]]⟩

/-- `wds10` after fetching the accelerometer row. -/
def wd10a : FileDatasource :=
  ⟨true, true, [["9","9","9"],["x","2","3"]], [["8","8"],["3","4"],["5","6"]],
    some (), some (), some [], some [["3","4"],["5","6"]]⟩


/-- Both backing files can be opened. -/
def bothAvail (ds : FileDatasource) : Prop :=
  ds.acc_avail = true ∧ ds.gps_avail = true

instance (ds : FileDatasource) : Decidable (bothAvail ds) := by
  unfold bothAvail; infer_instance

/-- Header detection consumes exactly the first row whenever there is one:
every branch of `_skip_header_if_present` leaves the reader past the peeked
row. -/
theorem skip_header_eq_tail (rows : List Row) (k : Nat) :
    skip_header_if_present rows k = rows.tail := by
  cases rows with
  | nil => rfl
  | cons a t =>
    simp only [skip_header_if_present, List.tail_cons]
    split <;> [rfl; split <;> rfl]

theorem setReader_acc_avail (ds : FileDatasource) (s : Source) (l : List Row) :
    (setReader ds s l).acc_avail = ds.acc_avail := by cases s <;> rfl

theorem setReader_gps_avail (ds : FileDatasource) (s : Source) (l : List Row) :
    (setReader ds s l).gps_avail = ds.gps_avail := by cases s <;> rfl

theorem setReader_acc_src (ds : FileDatasource) (s : Source) (l : List Row) :
    (setReader ds s l).acc_src = ds.acc_src := by cases s <;> rfl

theorem setReader_gps_src (ds : FileDatasource) (s : Source) (l : List Row) :
    (setReader ds s l).gps_src = ds.gps_src := by cases s <;> rfl

theorem readerOf_setReader (ds : FileDatasource) (s : Source) (l : List Row) :
    readerOf (setReader ds s l) s = some l := by cases s <;> rfl

theorem readerOf_setReader_other (ds : FileDatasource) (s : Source) (l : List Row) :
    readerOf (setReader ds s l) (otherSource s) = readerOf ds (otherSource s) := by
  cases s <;> rfl

theorem srcOf_setReader (ds : FileDatasource) (s t : Source) (l : List Row) :
    srcOf (setReader ds s l) t = srcOf ds t := by cases s <;> cases t <;> rfl

theorem bothAvail_setReader (ds : FileDatasource) (s : Source) (l : List Row)
    (h : bothAvail ds) : bothAvail (setReader ds s l) := by
  cases s <;> exact h

/-- When both files are available, `_open_files` succeeds and yields the
state with fresh handles and each reader positioned just past the first row
of its file (the row header detection consumed). -/
theorem open_files_ok (ds : FileDatasource)
    (ha : ds.acc_avail = true) (hg : ds.gps_avail = true) :
    open_files ds = .ok { ds with
      acc_file := some ()
      gps_file := some ()
      acc_reader := some ds.acc_src.tail
      gps_reader := some ds.gps_src.tail } := by
  simp [open_files, close_files, skip_header_eq_tail, ha, hg]

theorem readerOf_openedState (ds : FileDatasource) (s : Source) :
    readerOf { ds with
      acc_file := some ()
      gps_file := some ()
      acc_reader := some ds.acc_src.tail
      gps_reader := some ds.gps_src.tail } s = some ((srcOf ds s).tail) := by
  cases s <;> rfl

theorem srcOf_openedState (ds : FileDatasource) (s : Source) :
    srcOf { ds with
      acc_file := some ()
      gps_file := some ()
      acc_reader := some ds.acc_src.tail
      gps_reader := some ds.gps_src.tail } s = srcOf ds s := by
  cases s <;> rfl

theorem bothAvail_openedState (ds : FileDatasource) (h : bothAvail ds) :
    bothAvail { ds with
      acc_file := some ()
      gps_file := some ()
      acc_reader := some ds.acc_src.tail
      gps_reader := some ds.gps_src.tail } := h

theorem takeNonBlank_cons_of_nonblank {r : Row} {t : List Row}
    (h : isBlankRow r = false) : takeNonBlank (r :: t) = some (r, t) := by
  simp [takeNonBlank, h]

/-- The blank-skipping loop hits end-of-source exactly when no non-blank row
remains. -/
theorem takeNonBlank_eq_none_iff (l : List Row) :
    takeNonBlank l = none ↔ l.filter (fun r => !isBlankRow r) = [] := by
  induction l with
  | nil => exact ⟨fun _ => rfl, fun _ => rfl⟩
  | cons r t ih =>
    cases hb : isBlankRow r with
    | true => simp [takeNonBlank, hb, List.filter_cons, ih]
    | false => simp [takeNonBlank, hb, List.filter_cons]

/-- The blank-skipping loop consumes at least one row when it yields one. -/
theorem takeNonBlank_shrinks :
    ∀ {l : List Row} {r : Row} {t : List Row},
      takeNonBlank l = some (r, t) → t.length < l.length := by
  intro l
  induction l with
  | nil => intro r t h; simp [takeNonBlank] at h
  | cons x xs ih =>
    intro r t h
    cases hb : isBlankRow x with
    | true =>
      simp only [takeNonBlank, hb, if_true] at h
      exact Nat.lt_trans (ih h) (Nat.lt_succ_self _)
    | false =>
      simp [takeNonBlank, hb] at h
      obtain ⟨rfl, rfl⟩ := h
      exact Nat.lt_succ_self _

/-- Correspondence between the blank-skipping loop on a row list and the
list of its non-blank rows. -/
theorem takeNonBlank_corr {l2 l1 : List Row}
    (hc : l2.filter (fun r => !isBlankRow r) = l1) :
    (l1 = [] → takeNonBlank l2 = none) ∧
    (∀ x t1, l1 = x :: t1 →
      ∃ t2, takeNonBlank l2 = some (x, t2) ∧ t2.filter (fun r => !isBlankRow r) = t1) := by
  induction l2 generalizing l1 with
  | nil =>
    refine ⟨fun _ => rfl, fun x t1 hx => ?_⟩
    rw [List.filter_nil] at hc
    rw [hx] at hc
    exact absurd hc.symm (List.cons_ne_nil x t1)
  | cons b rest ih =>
    cases hb : isBlankRow b with
    | true =>
      have hc2 : rest.filter (fun r => !isBlankRow r) = l1 := by
        rw [List.filter_cons] at hc
        simpa [hb] using hc
      have h := ih hc2
      refine ⟨fun h1 => ?_, fun x t1 hx => ?_⟩
      · rw [takeNonBlank, hb, if_pos rfl]
        exact h.1 h1
      · obtain ⟨t2, ht2, hf⟩ := h.2 x t1 hx
        exact ⟨t2, by rw [takeNonBlank, hb, if_pos rfl]; exact ht2, hf⟩
    | false =>
      have hc2 : b :: rest.filter (fun r => !isBlankRow r) = l1 := by
        rw [List.filter_cons] at hc
        simpa [hb] using hc
      refine ⟨fun h1 => ?_, fun x t1 hx => ?_⟩
      · rw [← hc2] at h1; exact absurd h1 (List.cons_ne_nil _ _)
      · rw [hx] at hc2
        obtain ⟨rfl, hrest⟩ : b = x ∧ rest.filter (fun r => !isBlankRow r) = t1 := by
          have h1 := List.head_eq_of_cons_eq hc2
          have h2 := List.tail_eq_of_cons_eq hc2
          exact ⟨h1, h2⟩
        exact ⟨rest, takeNonBlank_cons_of_nonblank hb, hrest⟩

/-- A `_next_row` call on a closed reader (not reachable from the modelled
entry points) yields nothing. -/
theorem next_row_reader_none {F : Nat} {ds : FileDatasource} {s : Source}
    (hl : readerOf ds s = none) : next_row (F + 1) ds s = none := by
  rw [next_row, hl]

/-- One `_next_row` step when a non-blank row is found directly. -/
theorem next_row_direct {F : Nat} {ds : FileDatasource} {s : Source} {l : List Row}
    {r : Row} {t : List Row} (hl : readerOf ds s = some l)
    (ht : takeNonBlank l = some (r, t)) :
    next_row (F + 1) ds s = some (.ok (r, setReader ds s t)) := by
  simp only [next_row, hl, ht]

/-- One `_next_row` step on exhaustion: `_open_files` succeeds and the call
recurses on the reopened state. -/
theorem next_row_wrap {F : Nat} {ds d2 : FileDatasource} {s : Source} {l : List Row}
    (hl : readerOf ds s = some l) (ht : takeNonBlank l = none)
    (ho : open_files ds = .ok d2) :
    next_row (F + 1) ds s = next_row F d2 s := by
  simp only [next_row, hl, ht, ho]

/-- Fields of the state `_open_files` returns on success. -/
theorem open_files_fields {ds d : FileDatasource} (h : open_files ds = .ok d) :
    d.acc_avail = ds.acc_avail ∧ d.gps_avail = ds.gps_avail ∧
    d.acc_src = ds.acc_src ∧ d.gps_src = ds.gps_src ∧
    d.acc_reader = some ds.acc_src.tail ∧ d.gps_reader = some ds.gps_src.tail := by
  simp only [open_files, close_files] at h
  split at h
  · split at h
    · injection h with h
      subst h
      refine ⟨rfl, rfl, rfl, rfl, ?_, ?_⟩ <;> simp [skip_header_eq_tail]
    · exact absurd h (by simp)
  · exact absurd h (by simp)

/-- `_next_row` never changes which files exist or what they contain. -/
theorem next_row_preserves {s : Source} :
    ∀ {F : Nat} {ds d : FileDatasource} {r : Row},
      next_row F ds s = some (.ok (r, d)) →
      d.acc_avail = ds.acc_avail ∧ d.gps_avail = ds.gps_avail ∧
      d.acc_src = ds.acc_src ∧ d.gps_src = ds.gps_src := by
  intro F
  induction F with
  | zero => intro ds d r h; simp [next_row] at h
  | succ F ih =>
    intro ds d r h
    cases hr : readerOf ds s with
    | none => rw [next_row_reader_none hr] at h; exact absurd h (by simp)
    | some l =>
      cases ht : takeNonBlank l with
      | some p =>
        obtain ⟨r2, t2⟩ := p
        rw [next_row_direct hr ht] at h
        obtain ⟨rfl, rfl⟩ : r2 = r ∧ setReader ds s t2 = d := by
          have h2 := Except.ok.inj (Option.some.inj h)
          exact ⟨congrArg Prod.fst h2, congrArg Prod.snd h2⟩
        exact ⟨setReader_acc_avail .., setReader_gps_avail ..,
          setReader_acc_src .., setReader_gps_src ..⟩
      | none =>
        cases ho : open_files ds with
        | error e =>
          rw [next_row, hr] at h
          simp only [ht, ho] at h
          exact absurd h (by simp)
        | ok d2 =>
          rw [next_row_wrap hr ht ho] at h
          have hfields := open_files_fields ho
          have h4 := ih h
          exact ⟨h4.1.trans hfields.1, h4.2.1.trans hfields.2.1,
            h4.2.2.1.trans hfields.2.2.1, h4.2.2.2.trans hfields.2.2.2.1⟩

/-- The reader of either channel right after a successful `_open_files`. -/
theorem open_files_readerOf {ds d : FileDatasource} (h : open_files ds = .ok d)
    (s : Source) : readerOf d s = some ((srcOf ds s).tail) := by
  have hf := open_files_fields h
  cases s
  · exact hf.2.2.2.2.1
  · exact hf.2.2.2.2.2

/-- `_open_files` does not change the backing file contents. -/
theorem open_files_srcOf {ds d : FileDatasource} (h : open_files ds = .ok d)
    (s : Source) : srcOf d s = srcOf ds s := by
  have hf := open_files_fields h
  cases s
  · exact hf.2.2.1
  · exact hf.2.2.2.1

theorem open_files_bothAvail {ds d : FileDatasource} (h : open_files ds = .ok d)
    (hav : bothAvail ds) : bothAvail d := by
  have hf := open_files_fields h
  exact ⟨hf.1.trans hav.1, hf.2.1.trans hav.2⟩

/-- On a channel whose reader and backing file hold no non-blank row,
`_next_row` re-opens and searches forever: no recursion depth yields any
outcome at all (neither a row nor an error). -/
theorem next_row_spin (s : Source) :
    ∀ (F : Nat) (ds : FileDatasource) (l : List Row),
      bothAvail ds →
      readerOf ds s = some l →
      l.filter (fun r => !isBlankRow r) = [] →
      ((srcOf ds s).tail).filter (fun r => !isBlankRow r) = [] →
      next_row F ds s = none := by
  intro F
  induction F with
  | zero => intro ds l _ _ _ _; rfl
  | succ F ih =>
    intro ds l hav hl hfl hft
    have ht : takeNonBlank l = none := (takeNonBlank_eq_none_iff l).2 hfl
    cases ho : open_files ds with
    | error e =>
      rw [open_files_ok ds hav.1 hav.2] at ho
      exact absurd ho (by simp)
    | ok d2 =>
      rw [next_row_wrap hl ht ho]
      apply ih d2 ((srcOf ds s).tail) (open_files_bothAvail ho hav)
        (open_files_readerOf ho s) hft
      rw [open_files_srcOf ho s]
      exact hft

/-- Once the other channel's reader sits at the reset position (start of its
file, first row consumed), any successful `_next_row` call on this channel
leaves it there: the direct branch does not touch it and every wrap resets it
again. -/
theorem next_row_keeps_reset (s : Source) :
    ∀ (F : Nat) (ds d : FileDatasource) (r : Row),
      bothAvail ds →
      readerOf ds (otherSource s) = some ((srcOf ds (otherSource s)).tail) →
      next_row F ds s = some (.ok (r, d)) →
      readerOf d (otherSource s) = some ((srcOf ds (otherSource s)).tail) := by
  intro F
  induction F with
  | zero => intro ds d r _ _ h; exact absurd h (by simp [next_row])
  | succ F ih =>
    intro ds d r hav hres h
    cases hr : readerOf ds s with
    | none => rw [next_row_reader_none hr] at h; exact absurd h (by simp)
    | some l =>
      cases ht : takeNonBlank l with
      | some p =>
        obtain ⟨r2, t2⟩ := p
        rw [next_row_direct hr ht] at h
        obtain ⟨rfl, rfl⟩ : r2 = r ∧ setReader ds s t2 = d := by
          have h2 := Except.ok.inj (Option.some.inj h)
          exact ⟨congrArg Prod.fst h2, congrArg Prod.snd h2⟩
        rw [readerOf_setReader_other]
        exact hres
      | none =>
        cases ho : open_files ds with
        | error e =>
          rw [next_row, hr] at h
          simp only [ht, ho] at h
          exact absurd h (by simp)
        | ok d2 =>
          rw [next_row_wrap hr ht ho] at h
          have hres2 : readerOf d2 (otherSource s) =
              some ((srcOf d2 (otherSource s)).tail) := by
            rw [open_files_readerOf ho (otherSource s), open_files_srcOf ho]
          have := ih d2 d r (open_files_bothAvail ho hav) hres2 h
          rw [open_files_srcOf ho] at this
          exact this

theorem getD_mem_of_lt (rows : List Row) (p : Nat) (hp : p < rows.length) :
    rows.getD p [] ∈ rows := by
  rw [List.getD_eq_getElem rows [] hp]
  exact List.getElem_mem hp

theorem drop_cons_getD (rows : List Row) (p : Nat) (hp : p < rows.length) :
    rows.drop p = rows.getD p [] :: rows.drop (p + 1) := by
  rw [List.getD_eq_getElem rows [] hp]
  exact List.drop_eq_getElem_cons hp

/-- One `_next_row` call on a channel of all-non-blank source rows, with the
reader `p` rows in: for `1 ≤ p < N` it returns row `p` (0-based) and advances;
for `p = N` it wraps, losing row 0 to header detection again, and returns
row 1. -/
theorem fetch_step (s : Source) (rows : List Row)
    (hnb : ∀ r ∈ rows, isBlankRow r = false) (hN : 2 ≤ rows.length) :
    ∀ (F p : Nat) (ds : FileDatasource),
      bothAvail ds → srcOf ds s = rows →
      readerOf ds s = some (rows.drop p) → 1 ≤ p → p ≤ rows.length →
      ∃ d, next_row (F + 2) ds s =
          some (.ok (rows.getD (if p < rows.length then p else 1) [], d)) ∧
        bothAvail d ∧ srcOf d s = rows ∧
        readerOf d s = some (rows.drop ((if p < rows.length then p else 1) + 1)) := by
  intro F p ds hav hsrc hrd hp1 hpN
  by_cases hp : p < rows.length
  · rw [if_pos hp]
    have hd : rows.drop p = rows.getD p [] :: rows.drop (p + 1) := drop_cons_getD rows p hp
    have hnbp : isBlankRow (rows.getD p []) = false := hnb _ (getD_mem_of_lt rows p hp)
    have ht : takeNonBlank (rows.drop p) = some (rows.getD p [], rows.drop (p + 1)) := by
      rw [hd]; exact takeNonBlank_cons_of_nonblank hnbp
    refine ⟨setReader ds s (rows.drop (p + 1)), next_row_direct hrd ht,
      bothAvail_setReader ds s _ hav, ?_, ?_⟩
    · rw [srcOf_setReader]; exact hsrc
    · rw [readerOf_setReader]
  · have hpe : p = rows.length := le_antisymm hpN (not_lt.1 hp)
    rw [if_neg hp]
    have hdrop : rows.drop p = [] := by
      rw [hpe]; exact List.drop_eq_nil_of_le (le_refl _)
    have ht : takeNonBlank (rows.drop p) = none := by rw [hdrop]; rfl
    cases ho : open_files ds with
    | error e =>
      rw [open_files_ok ds hav.1 hav.2] at ho
      exact absurd ho (by simp)
    | ok d2 =>
      rw [show F + 2 = (F + 1) + 1 from rfl, next_row_wrap hrd ht ho]
      have hrd2 : readerOf d2 s = some (rows.drop 1) := by
        rw [open_files_readerOf ho s, hsrc, List.drop_one]
      have h1N : (1 : Nat) < rows.length := by omega
      have hd : rows.drop 1 = rows.getD 1 [] :: rows.drop 2 := drop_cons_getD rows 1 h1N
      have hnb1 : isBlankRow (rows.getD 1 []) = false := hnb _ (getD_mem_of_lt rows 1 h1N)
      have ht2 : takeNonBlank (rows.drop 1) = some (rows.getD 1 [], rows.drop 2) := by
        rw [hd]; exact takeNonBlank_cons_of_nonblank hnb1
      refine ⟨setReader d2 s (rows.drop 2), next_row_direct hrd2 ht2, ?_, ?_, ?_⟩
      · exact bothAvail_setReader d2 s _ (open_files_bothAvail ho hav)
      · rw [srcOf_setReader, open_files_srcOf ho]; exact hsrc
      · rw [readerOf_setReader]

/-- Running `q + 1` fetches from position `p` while staying strictly inside
the source: the last one returns row `p + q` and the reader stands past it. -/
theorem fetch_run (s : Source) (rows : List Row)
    (hnb : ∀ r ∈ rows, isBlankRow r = false) (hN : 2 ≤ rows.length) :
    ∀ (q p F : Nat) (ds : FileDatasource),
      bothAvail ds → srcOf ds s = rows → readerOf ds s = some (rows.drop p) →
      1 ≤ p → p + q < rows.length →
      ∃ d, nthFetch (F + 2) (q + 1) ds s = some (rows.getD (p + q) [], d) ∧
        bothAvail d ∧ srcOf d s = rows ∧
        readerOf d s = some (rows.drop (p + q + 1)) := by
  intro q
  induction q with
  | zero =>
    intro p F ds hav hsrc hrd hp1 hpq
    have hp : p < rows.length := by omega
    obtain ⟨d, hnr, hd1, hd2, hd3⟩ :=
      fetch_step s rows hnb hN F p ds hav hsrc hrd hp1 (le_of_lt hp)
    rw [if_pos hp] at hnr hd3
    refine ⟨d, ?_, hd1, hd2, ?_⟩
    · simp only [Nat.add_zero, nthFetch, hnr]
    · simpa using hd3
  | succ q ih =>
    intro p F ds hav hsrc hrd hp1 hpq
    have hp : p < rows.length := by omega
    obtain ⟨d, hnr, hd1, hd2, hd3⟩ :=
      fetch_step s rows hnb hN F p ds hav hsrc hrd hp1 (le_of_lt hp)
    rw [if_pos hp] at hnr hd3
    obtain ⟨d2, hfet, h1, h2, h3⟩ := ih (p + 1) F d hd1 hd2 hd3 (by omega) (by omega)
    refine ⟨d2, ?_, h1, h2, ?_⟩
    · simp only [nthFetch, hnr]
      rw [show p + (q + 1) = p + 1 + q by omega]
      exact hfet
    · rw [show p + (q + 1) + 1 = p + 1 + q + 1 by omega]
      exact h3

/-- Running `q + 1` fetches from position `p` with exactly enough rows left to
reach the end: the last fetch hits the exhausted reader, wraps, and returns
row 1 (row 0 being consumed by header detection on the re-open). -/
theorem fetch_run_wrap (s : Source) (rows : List Row)
    (hnb : ∀ r ∈ rows, isBlankRow r = false) (hN : 2 ≤ rows.length) :
    ∀ (q p F : Nat) (ds : FileDatasource),
      bothAvail ds → srcOf ds s = rows → readerOf ds s = some (rows.drop p) →
      1 ≤ p → p + q = rows.length →
      ∃ d, nthFetch (F + 2) (q + 1) ds s = some (rows.getD 1 [], d) := by
  intro q
  induction q with
  | zero =>
    intro p F ds hav hsrc hrd hp1 hpq
    obtain ⟨d, hnr, _, _, _⟩ :=
      fetch_step s rows hnb hN F p ds hav hsrc hrd hp1 (by omega)
    have hp : ¬ p < rows.length := by omega
    rw [if_neg hp] at hnr
    exact ⟨d, by simp only [Nat.add_zero, nthFetch, hnr]⟩
  | succ q ih =>
    intro p F ds hav hsrc hrd hp1 hpq
    have hp : p < rows.length := by omega
    obtain ⟨d, hnr, hd1, hd2, hd3⟩ :=
      fetch_step s rows hnb hN F p ds hav hsrc hrd hp1 (le_of_lt hp)
    rw [if_pos hp] at hnr hd3
    obtain ⟨d2, hfet⟩ := ih (p + 1) F d hd1 hd2 hd3 (by omega) (by omega)
    refine ⟨d2, ?_⟩
    simp only [nthFetch, hnr]
    exact hfet

theorem withBlanks_single (r : Row) (bs : List (List Row)) :
    withBlanks [r] bs = [r] := rfl

theorem withBlanks_cons_nil (r y : Row) (t : List Row) :
    withBlanks (r :: y :: t) [] = r :: withBlanks (y :: t) [] := rfl

theorem withBlanks_cons_cons (r y : Row) (t : List Row) (b : List Row)
    (bs2 : List (List Row)) :
    withBlanks (r :: y :: t) (b :: bs2) = r :: (b ++ withBlanks (y :: t) bs2) := rfl

/-- The non-blank rows of a source with blank rows inserted between its data
rows are exactly the data rows. -/
theorem filter_withBlanks :
    ∀ (rows : List Row) (bs : List (List Row)),
      (∀ r ∈ rows, isBlankRow r = false) →
      (∀ b ∈ bs, ∀ r ∈ b, isBlankRow r = true) →
      (withBlanks rows bs).filter (fun r => !isBlankRow r) = rows := by
  intro rows
  induction rows with
  | nil => intro bs _ _; rfl
  | cons r rs ih =>
    intro bs hrows hbs
    have hr : isBlankRow r = false := hrows r (List.mem_cons_self r rs)
    cases rs with
    | nil => simp [withBlanks_single, List.filter_cons, hr]
    | cons y t =>
      have hsub : ∀ x ∈ y :: t, isBlankRow x = false :=
        fun x hx => hrows x (List.mem_cons_of_mem r hx)
      cases bs with
      | nil =>
        rw [withBlanks_cons_nil, List.filter_cons,
          ih [] hsub (by intro b hb; exact absurd hb (List.not_mem_nil b))]
        simp [hr]
      | cons b bs2 =>
        have hb : b.filter (fun r => !isBlankRow r) = [] := by
          rw [List.filter_eq_nil_iff]
          intro x hx
          simp [hbs b (List.mem_cons_self b bs2) x hx]
        have hsub2 : ∀ c ∈ bs2, ∀ x ∈ c, isBlankRow x = true :=
          fun c hc => hbs c (List.mem_cons_of_mem b hc)
        rw [withBlanks_cons_cons, List.filter_cons, List.filter_append, hb,
          ih bs2 hsub hsub2]
        simp [hr]

/-- Dropping the first row commutes with blank insertion up to filtering:
the non-blank rows after the (data) head of the blank-padded source are the
original rows after the head. -/
theorem withBlanks_tail_filter (rows : List Row) (bs : List (List Row))
    (hrows : ∀ r ∈ rows, isBlankRow r = false)
    (hbs : ∀ b ∈ bs, ∀ r ∈ b, isBlankRow r = true) :
    ((withBlanks rows bs).tail).filter (fun r => !isBlankRow r) = rows.tail := by
  cases rows with
  | nil => rfl
  | cons r rs =>
    cases rs with
    | nil => rfl
    | cons y t =>
      have hsub : ∀ x ∈ y :: t, isBlankRow x = false :=
        fun x hx => hrows x (List.mem_cons_of_mem r hx)
      cases bs with
      | nil =>
        rw [withBlanks_cons_nil, List.tail_cons]
        exact filter_withBlanks (y :: t) []
          hsub (by intro b hb; exact absurd hb (List.not_mem_nil b))
      | cons b bs2 =>
        have hb : b.filter (fun r => !isBlankRow r) = [] := by
          rw [List.filter_eq_nil_iff]
          intro x hx
          simp [hbs b (List.mem_cons_self b bs2) x hx]
        have hsub2 : ∀ c ∈ bs2, ∀ x ∈ c, isBlankRow x = true :=
          fun c hc => hbs c (List.mem_cons_of_mem b hc)
        rw [withBlanks_cons_cons, List.tail_cons, List.filter_append, hb,
          filter_withBlanks (y :: t) bs2 hsub hsub2]
        simp

/-- One `_next_row` call behaves identically on a source and on the same
source with blank rows mixed in, provided the readers agree up to blank rows:
both yield nothing, or both yield the same row with the agreement restored. -/
theorem next_row_filter_equiv (s : Source) (rows src2 : List Row)
    (htail : src2.tail.filter (fun r => !isBlankRow r) = rows.tail) :
    ∀ (F : Nat) (ds1 ds2 : FileDatasource) (l1 l2 : List Row),
      bothAvail ds1 → bothAvail ds2 →
      srcOf ds1 s = rows → srcOf ds2 s = src2 →
      readerOf ds1 s = some l1 → readerOf ds2 s = some l2 →
      l2.filter (fun r => !isBlankRow r) = l1 →
      (next_row F ds1 s = none ∧ next_row F ds2 s = none) ∨
      (∃ r d1 d2, next_row F ds1 s = some (.ok (r, d1)) ∧
        next_row F ds2 s = some (.ok (r, d2)) ∧
        bothAvail d1 ∧ bothAvail d2 ∧ srcOf d1 s = rows ∧ srcOf d2 s = src2 ∧
        ∃ m1 m2, readerOf d1 s = some m1 ∧ readerOf d2 s = some m2 ∧
          m2.filter (fun r => !isBlankRow r) = m1) := by
  intro F
  induction F with
  | zero => intro ds1 ds2 l1 l2 _ _ _ _ _ _ _; exact Or.inl ⟨rfl, rfl⟩
  | succ F ih =>
    intro ds1 ds2 l1 l2 hav1 hav2 hs1 hs2 hr1 hr2 hcorr
    have hcorr2 := takeNonBlank_corr hcorr
    cases hl1 : l1 with
    | nil =>
      have ht2 : takeNonBlank l2 = none := hcorr2.1 hl1
      have ht1 : takeNonBlank l1 = none := by rw [hl1]; rfl
      cases ho1 : open_files ds1 with
      | error e =>
        rw [open_files_ok ds1 hav1.1 hav1.2] at ho1
        exact absurd ho1 (by simp)
      | ok e1 =>
        cases ho2 : open_files ds2 with
        | error e =>
          rw [open_files_ok ds2 hav2.1 hav2.2] at ho2
          exact absurd ho2 (by simp)
        | ok e2 =>
          rw [next_row_wrap hr1 ht1 ho1, next_row_wrap hr2 ht2 ho2]
          apply ih e1 e2 rows.tail src2.tail
            (open_files_bothAvail ho1 hav1) (open_files_bothAvail ho2 hav2)
          · rw [open_files_srcOf ho1]; exact hs1
          · rw [open_files_srcOf ho2]; exact hs2
          · rw [open_files_readerOf ho1 s, hs1]
          · rw [open_files_readerOf ho2 s, hs2]
          · exact htail
    | cons x t1 =>
      obtain ⟨t2, ht2, hf2⟩ := hcorr2.2 x t1 hl1
      have hx : isBlankRow x = false := by
        have hmem : x ∈ l2.filter (fun r => !isBlankRow r) := by
          rw [hcorr, hl1]
          exact List.mem_cons_self x t1
        simpa using List.of_mem_filter hmem
      have ht1 : takeNonBlank l1 = some (x, t1) := by
        rw [hl1]; exact takeNonBlank_cons_of_nonblank hx
      refine Or.inr ⟨x, setReader ds1 s t1, setReader ds2 s t2,
        next_row_direct hr1 ht1, next_row_direct hr2 ht2,
        bothAvail_setReader ds1 s t1 hav1, bothAvail_setReader ds2 s t2 hav2,
        ?_, ?_, t1, t2, readerOf_setReader .., readerOf_setReader .., hf2⟩
      · rw [srcOf_setReader]; exact hs1
      · rw [srcOf_setReader]; exact hs2

/-- The row streams of a source and of the same source with blank rows mixed
in coincide fetch by fetch. -/
theorem nthFetch_filter_equiv (s : Source) (rows src2 : List Row)
    (htail : src2.tail.filter (fun r => !isBlankRow r) = rows.tail) :
    ∀ (k F : Nat) (ds1 ds2 : FileDatasource) (l1 l2 : List Row),
      bothAvail ds1 → bothAvail ds2 →
      srcOf ds1 s = rows → srcOf ds2 s = src2 →
      readerOf ds1 s = some l1 → readerOf ds2 s = some l2 →
      l2.filter (fun r => !isBlankRow r) = l1 →
      (nthFetch F k ds1 s).map Prod.fst = (nthFetch F k ds2 s).map Prod.fst := by
  intro k
  induction k with
  | zero => intro F ds1 ds2 l1 l2 _ _ _ _ _ _ _; rfl
  | succ k ih =>
    intro F ds1 ds2 l1 l2 hav1 hav2 hs1 hs2 hr1 hr2 hcorr
    have hstep := next_row_filter_equiv s rows src2 htail F ds1 ds2 l1 l2
      hav1 hav2 hs1 hs2 hr1 hr2 hcorr
    cases k with
    | zero =>
      rcases hstep with ⟨h1, h2⟩ | ⟨r, d1, d2, h1, h2, _⟩
      · simp only [nthFetch, h1, h2]
      · simp only [nthFetch, h1, h2]
        rfl
    | succ k2 =>
      rcases hstep with ⟨h1, h2⟩ | ⟨r, d1, d2, h1, h2, hv1, hv2, hsr1, hsr2,
        m1, m2, hm1, hm2, hmc⟩
      · simp only [nthFetch, h1, h2]
      · simp only [nthFetch, h1, h2]
        exact ih F d1 d2 m1 m2 hv1 hv2 hsr1 hsr2 hm1 hm2 hmc

/-- `int(acc_row[0]) .. int(acc_row[2])` fails exactly when the row is
shorter than 3 fields or one of the first three fields is not an integer
literal. -/
theorem parse_acc_row_eq_none_iff (r : Row) :
    parse_acc_row r = none ↔
      r.length < 3 ∨ int_of_string (r.getD 0 "") = none ∨
      int_of_string (r.getD 1 "") = none ∨ int_of_string (r.getD 2 "") = none := by
  match r with
  | [] => simp [parse_acc_row]
  | [x] => simp [parse_acc_row]
  | [x, y] => simp [parse_acc_row]
  | x :: y :: z :: rest =>
    cases hx : int_of_string x <;> cases hy : int_of_string y <;>
      cases hz : int_of_string z <;>
      simp [parse_acc_row, hx, hy, hz, List.getD_cons_zero, List.getD_cons_succ]

/-- `float(gps_row[0]), float(gps_row[1])` fails exactly when the row is
shorter than 2 fields or one of the first two fields is not a float
literal. -/
theorem parse_gps_row_eq_none_iff (r : Row) :
    parse_gps_row r = none ↔
      r.length < 2 ∨ float_of_string (r.getD 0 "") = none ∨
      float_of_string (r.getD 1 "") = none := by
  match r with
  | [] => simp [parse_gps_row]
  | [x] => simp [parse_gps_row]
  | x :: y :: rest =>
    cases hx : float_of_string x <;> cases hy : float_of_string y <;>
      simp [parse_gps_row, hx, hy, List.getD_cons_zero, List.getD_cons_succ]

/-- When both readers are present, `read` skips the lazy open and goes
straight to fetching and parsing. -/
theorem read_open (F : Nat) (ds : FileDatasource)
    (h1 : ds.acc_reader.isNone = false) (h2 : ds.gps_reader.isNone = false) :
    read F ds =
      match next_row F ds .acc with
      | none => none
      | some (.error e) => some (.error e)
      | some (.ok (acc_row, d1)) =>
        match next_row F d1 .gps with
        | none => none
        | some (.error e) => some (.error e)
        | some (.ok (gps_row, d2)) =>
          match parse_acc_row acc_row with
          | none => some (.error (.malformedRecord, d2))
          | some xyz =>
            match parse_gps_row gps_row with
            | none => some (.error (.malformedRecord, d2))
            | some ll =>
              some (.ok (⟨⟨xyz.1, xyz.2.1, xyz.2.2⟩, ⟨ll.1, ll.2⟩, ()⟩, d2)) := by
  unfold read
  rw [h1, h2]
  rfl

/-- C1: the spec requires a numeric first row (genuine data) to be retained
by header detection and delivered first; the code instead consumes it during
the peek — the `raise ValueError` meant to trigger a re-open is swallowed by
the function's own `except` — so on the source `[1,2,3]; [4,5,6]` the first
two fetches after `startReading` both deliver `[4,5,6]` and `[1,2,3]` is
never delivered.  This contradicts the code's own comment announcing the
re-open hack, and the spec marks the behavior as incorrect. -/
theorem C1_numeric_first_row_dropped :
    runC1 = some (some ["4","5","6"], some ["4","5","6"]) ∧
      some (["4","5","6"] : Row) ≠ some (["1","2","3"] : Row) :=
  ⟨rfl, by decide⟩

/-- C2 (amended): the channel cursors are not independent.  When a channel
exhausts, `_next_row` calls `_open_files`, which re-opens BOTH files: any
successful fetch that went through such a wrap leaves the other channel's
reader reset to just past the first row of its file, regardless of where it
stood before. -/
theorem C2_wrap_resets_other_channel (F : Nat) (ds d : FileDatasource)
    (s : Source) (l : List Row) (r : Row)
    (hav : bothAvail ds)
    (hl : readerOf ds s = some l) (hex : takeNonBlank l = none)
    (h : next_row F ds s = some (.ok (r, d))) :
    readerOf d (otherSource s) = some ((srcOf ds (otherSource s)).tail) := by
  cases F with
  | zero => exact absurd h (by simp [next_row])
  | succ F =>
    cases ho : open_files ds with
    | error e =>
      rw [open_files_ok ds hav.1 hav.2] at ho
      exact absurd ho (by simp)
    | ok d2 =>
      rw [next_row_wrap hl hex ho] at h
      have hres2 : readerOf d2 (otherSource s) =
          some ((srcOf d2 (otherSource s)).tail) := by
        rw [open_files_readerOf ho (otherSource s), open_files_srcOf ho]
      have hk := next_row_keeps_reset s F d2 d r (open_files_bothAvail ho hav) hres2 h
      rw [open_files_srcOf ho] at hk
      exact hk

/-- C2 witness: after the accelerometer wrap on `wds2`, the GPS reader sits
at the reset position even though it was fully consumed before. -/
theorem C2_wrap_resets_other_channel_witness :
    readerOf wd2out (otherSource .acc) = some [["8","8"]] :=
  C2_wrap_resets_other_channel 3 wds2 wd2out .acc [] ["7","7","7"]
    ⟨rfl, rfl⟩ rfl rfl rfl

/-- C2 counterexample: with a 1-data-row accelerometer source and a
3-data-row GPS source, alternating fetches deliver the GPS rows
`[1,1]; [1,1]` (the accelerometer wrap reset the GPS cursor), while the GPS
channel alone would have delivered `[2,2]` second — the GPS sequence is not
the never-wrapped sequence. -/
theorem C2_counterexample :
    runC2 = some ((some ["1","1"], some ["1","1"]), some ["2","2"]) ∧
      (["1","1"] : Row) ≠ ["2","2"] :=
  ⟨rfl, by decide⟩

/-- C3 (amended): because `_open_files` consumes the first row of the file as
a potential header on EVERY open — including the re-open on each wrap — the
stream a channel delivers over a source of `N ≥ 2` non-blank rows is rows
2..N repeated cyclically: the k-th fetch (1 ≤ k < N) returns row k+1
(1-based), and the N-th fetch returns row 2 again; row 1 is never delivered.
The claim's `N+1`-th-fetch-returns-row-1 property fails. -/
theorem C3_cycle_from_second_row (s : Source) (rows : List Row) (F : Nat)
    (ds0 : FileDatasource)
    (hnb : ∀ r ∈ rows, isBlankRow r = false) (hN : 2 ≤ rows.length)
    (hav : bothAvail ds0) (hsrc : srcOf ds0 s = rows)
    (hrd : readerOf ds0 s = some rows.tail) :
    (∀ k, 1 ≤ k → k < rows.length →
      (nthFetch (F + 2) k ds0 s).map Prod.fst = some (rows.getD k [])) ∧
    (nthFetch (F + 2) rows.length ds0 s).map Prod.fst = some (rows.getD 1 []) := by
  have hrd1 : readerOf ds0 s = some (rows.drop 1) := by
    rw [List.drop_one]; exact hrd
  constructor
  · intro k hk1 hkN
    obtain ⟨q, rfl⟩ : ∃ q, k = q + 1 := ⟨k - 1, by omega⟩
    obtain ⟨d, hfet, _⟩ :=
      fetch_run s rows hnb hN q 1 F ds0 hav hsrc hrd1 (le_refl 1) (by omega)
    rw [hfet]
    simp [show 1 + q = q + 1 by omega]
  · obtain ⟨q, hq⟩ : ∃ q, rows.length = q + 1 := ⟨rows.length - 1, by omega⟩
    obtain ⟨d, hfet⟩ :=
      fetch_run_wrap s rows hnb hN q 1 F ds0 hav hsrc hrd1 (le_refl 1) (by omega)
    rw [hq, hfet]
    rfl

/-- C3 witness: on the 3-row GPS source of `wds3`, fetch 2 delivers row 3 and
fetch 3 (= N) delivers row 2 again. -/
theorem C3_cycle_from_second_row_witness :
    (nthFetch 2 2 wds3 .gps).map Prod.fst = some ["3","3"] ∧
    (nthFetch 2 3 wds3 .gps).map Prod.fst = some ["2","2"] := by
  have h := C3_cycle_from_second_row .gps [["1","1"],["2","2"],["3","3"]] 0 wds3
    (by decide) (by decide) ⟨rfl, rfl⟩ rfl rfl
  exact ⟨h.1 2 (by decide) (by decide), h.2⟩

/-- C3 counterexample: on a GPS source with the `N = 2` non-blank rows
`[1,2]; [3,4]`, the 1st and the `N+1 = 3`rd fetches after `startReading` both
deliver `[3,4]`, not `[1,2]` as the claim requires. -/
theorem C3_counterexample :
    runC3 = some (some ["3","4"], some ["3","4"]) ∧ (["3","4"] : Row) ≠ ["1","2"] :=
  ⟨rfl, by decide⟩

/-- C4 (amended): if the accelerometer file cannot be opened, the error
propagates with both channels closed (the initial `_close_files` saw to it);
but if the accelerometer file opens and the GPS file cannot be opened, the
accelerometer handle stays acquired when `SourceUnavailable` propagates —
the claim that neither cursor is left partially open fails in that case. -/
theorem C4_partial_open_on_gps_failure (ds : FileDatasource) :
    (ds.acc_avail = false →
      startReading ds = .error (.sourceUnavailable, close_files ds) ∧
      (close_files ds).acc_file = none ∧ (close_files ds).gps_file = none) ∧
    (ds.acc_avail = true → ds.gps_avail = false →
      startReading ds =
        .error (.sourceUnavailable, { close_files ds with acc_file := some () }) ∧
      ({ close_files ds with acc_file := some () }).acc_file = some ()) := by
  constructor
  · intro ha
    refine ⟨?_, rfl, rfl⟩
    simp [startReading, open_files, close_files, ha]
  · intro ha hg
    refine ⟨?_, rfl⟩
    simp [startReading, open_files, close_files, ha, hg]

/-- C4 witness: on `dsC4` (accelerometer file present, GPS file missing),
`startReading` fails and the error state still holds the accelerometer
handle. -/
theorem C4_partial_open_on_gps_failure_witness :
    startReading dsC4 =
      .error (.sourceUnavailable, { close_files dsC4 with acc_file := some () }) ∧
    ({ close_files dsC4 with acc_file := some () }).acc_file = some () :=
  (C4_partial_open_on_gps_failure dsC4).2 rfl rfl

/-- C4 counterexample: on `dsC4` the propagated failure leaves the
accelerometer file handle acquired (`some ()`), so it is false that neither
cursor is left partially open. -/
theorem C4_counterexample :
    runC4 = some (.sourceUnavailable, some (), none) ∧
      (some () : Option Unit) ≠ none :=
  ⟨rfl, by decide⟩

/-- C5: a `read()` whose fetched accelerometer row has fewer than 3 fields or
a non-integer field, or whose fetched GPS row has fewer than 2 fields or a
non-float field, fails with `MalformedRecord`; no reading is returned, and
the error state is the one in which both rows are already consumed, so the
next `read()` starts from fresh rows. -/
theorem C5_malformed_record_rejected (F : Nat) (ds d1 d2 : FileDatasource)
    (a g : Row)
    (h1 : ds.acc_reader.isNone = false) (h2 : ds.gps_reader.isNone = false)
    (ha : next_row F ds .acc = some (.ok (a, d1)))
    (hg : next_row F d1 .gps = some (.ok (g, d2)))
    (hbad : a.length < 3 ∨ int_of_string (a.getD 0 "") = none ∨
      int_of_string (a.getD 1 "") = none ∨ int_of_string (a.getD 2 "") = none ∨
      g.length < 2 ∨ float_of_string (g.getD 0 "") = none ∨
      float_of_string (g.getD 1 "") = none) :
    read F ds = some (.error (.malformedRecord, d2)) := by
  have key : parse_acc_row a = none ∨ parse_gps_row g = none := by
    rcases hbad with h | h | h | h | h | h | h
    · exact Or.inl ((parse_acc_row_eq_none_iff a).2 (Or.inl h))
    · exact Or.inl ((parse_acc_row_eq_none_iff a).2 (Or.inr (Or.inl h)))
    · exact Or.inl ((parse_acc_row_eq_none_iff a).2 (Or.inr (Or.inr (Or.inl h))))
    · exact Or.inl ((parse_acc_row_eq_none_iff a).2 (Or.inr (Or.inr (Or.inr h))))
    · exact Or.inr ((parse_gps_row_eq_none_iff g).2 (Or.inl h))
    · exact Or.inr ((parse_gps_row_eq_none_iff g).2 (Or.inr (Or.inl h)))
    · exact Or.inr ((parse_gps_row_eq_none_iff g).2 (Or.inr (Or.inr h)))
  rw [read_open F ds h1 h2]
  rcases key with hk | hk
  · simp only [ha, hg, hk]
  · cases hpa : parse_acc_row a with
    | none => simp only [ha, hg, hpa]
    | some v => simp only [ha, hg, hpa, hk]

/-- C5 witness: the short accelerometer row `[1,2]` of `wds5` makes `read`
fail with the malformed-record error and the fully advanced state `wd5b`. -/
theorem C5_malformed_record_rejected_witness :
    read 1 wds5 = some (.error (.malformedRecord, wd5b)) :=
  C5_malformed_record_rejected 1 wds5 wd5a wd5b ["1","2"] ["3","4"]
    rfl rfl rfl rfl (Or.inl (by decide))

/-- C6: the claim requires a fetch on a source holding only blank/whitespace
rows to terminate with a `SourceExhaustedError`-like failure; the code has no
such guard — `_next_row` re-opens and recurses without bound (a Python
`RecursionError` at best), which the fuel model renders as: for EVERY
recursion depth the call produces no outcome at all, neither a row nor an
error. -/
theorem C6_all_blank_source_loops (F : Nat) (ds : FileDatasource) (s : Source)
    (l : List Row)
    (hav : bothAvail ds)
    (hl : readerOf ds s = some l)
    (hbl : ∀ r ∈ l, isBlankRow r = true)
    (hbs : ∀ r ∈ srcOf ds s, isBlankRow r = true) :
    next_row F ds s = none := by
  apply next_row_spin s F ds l hav hl
  · rw [List.filter_eq_nil_iff]
    intro x hx
    simp [hbl x hx]
  · rw [List.filter_eq_nil_iff]
    intro x hx
    simp [hbs x (List.mem_of_mem_tail hx)]

/-- C6 witness: on the whitespace-only accelerometer source of `wds6`, a
fetch at depth 4 (and, by the theorem, at any depth) yields nothing. -/
theorem C6_all_blank_source_loops_witness :
    next_row 4 wds6 .acc = none :=
  C6_all_blank_source_loops 4 wds6 .acc [[" "]] ⟨rfl, rfl⟩ rfl
    (by decide) (by decide)

/-- C7: inserting any number of all-blank rows strictly between the data rows
of a source leaves the delivered row stream unchanged, fetch by fetch — blank
rows are skipped inside `_next_row` and never surface, across wraps as
well. -/
theorem C7_blank_rows_transparent (s : Source) (rows : List Row)
    (bs : List (List Row)) (F k : Nat) (ds1 ds2 : FileDatasource)
    (hrows : ∀ r ∈ rows, isBlankRow r = false)
    (hbs : ∀ b ∈ bs, ∀ r ∈ b, isBlankRow r = true)
    (hav1 : bothAvail ds1) (hav2 : bothAvail ds2)
    (hs1 : srcOf ds1 s = rows) (hs2 : srcOf ds2 s = withBlanks rows bs)
    (hr1 : readerOf ds1 s = some rows.tail)
    (hr2 : readerOf ds2 s = some (withBlanks rows bs).tail) :
    (nthFetch F k ds1 s).map Prod.fst = (nthFetch F k ds2 s).map Prod.fst := by
  have htail := withBlanks_tail_filter rows bs hrows hbs
  exact nthFetch_filter_equiv s rows (withBlanks rows bs) htail k F ds1 ds2
    rows.tail (withBlanks rows bs).tail hav1 hav2 hs1 hs2 hr1 hr2 htail

/-- C7 witness: three fetches (through a wrap) deliver the same rows on the
plain source of `wds7a` and on the blank-padded source of `wds7b`. -/
theorem C7_blank_rows_transparent_witness :
    (nthFetch 3 3 wds7a .acc).map Prod.fst = (nthFetch 3 3 wds7b .acc).map Prod.fst :=
  C7_blank_rows_transparent .acc [["1","2"],["3","4"]] [[[""],[" "]]] 3 3
    wds7a wds7b (by decide) (by decide) ⟨rfl, rfl⟩ ⟨rfl, rfl⟩ rfl rfl rfl rfl

/-- C8 (amended): a first row whose field count differs from the expected
column count is still consumed by header detection — the peek cannot be
undone and every branch leaves it consumed — so the first fetch after
`startReading` returns the row AFTER it, not the mismatched row itself as the
claim states. -/
theorem C8_mismatched_width_first_row_consumed (F : Nat) (ds : FileDatasource)
    (s : Source) (peek r : Row) (t : List Row)
    (hav : bothAvail ds)
    (hsrc : srcOf ds s = peek :: r :: t)
    (_hw : peek.length ≠ expectedCols s)
    (hr : isBlankRow r = false) :
    ∃ d, startReading ds = .ok d ∧ readerOf d s = some (r :: t) ∧
      (nthFetch (F + 1) 1 d s).map Prod.fst = some r := by
  cases ho : open_files ds with
  | error e =>
    rw [open_files_ok ds hav.1 hav.2] at ho
    exact absurd ho (by simp)
  | ok d =>
    have hrd : readerOf d s = some (r :: t) := by
      rw [open_files_readerOf ho s, hsrc]
      rfl
    have ht : takeNonBlank (r :: t) = some (r, t) := takeNonBlank_cons_of_nonblank hr
    refine ⟨d, ho, hrd, ?_⟩
    simp only [nthFetch, next_row_direct hrd ht]
    rfl

/-- C8 witness: on `dsC8` (first accelerometer row `[1,2]`, width 2 instead
of 3), `startReading` yields `wd8` with the mismatched row already gone and
the first fetch delivers `[7,8,9]`. -/
theorem C8_mismatched_width_first_row_consumed_witness :
    startReading dsC8 = .ok wd8 ∧ readerOf wd8 .acc = some [["7","8","9"]] ∧
      (nthFetch 2 1 wd8 .acc).map Prod.fst = some ["7","8","9"] := by
  obtain ⟨d, hd1, hd2, hd3⟩ := C8_mismatched_width_first_row_consumed 1 dsC8 .acc
    ["1","2"] ["7","8","9"] [] ⟨rfl, rfl⟩ rfl (by decide) (by decide)
  have hd : d = wd8 := Except.ok.inj (by rw [← hd1]; rfl)
  subst hd
  exact ⟨hd1, hd2, hd3⟩

/-- C8 counterexample: on `dsC8` the first fetch after `startReading`
delivers `[7,8,9]`, the row after the width-mismatched first row `[1,2]`,
so the mismatched first row was not left in place as data. -/
theorem C8_counterexample :
    runC8 = some (some ["7","8","9"]) ∧ (["7","8","9"] : Row) ≠ ["1","2"] :=
  ⟨rfl, by decide⟩

/-- C9: when both files exist but hold zero rows, opening succeeds — header
detection swallows the `StopIteration` of its peek — and leaves both readers
open at the empty position; no failure is raised at open time.  A later
`read` (on the opened state, or on the fresh state via the lazy open) then
produces no outcome within any recursion depth: the failure, the unbounded
exhaustion recursion, surfaces only at read time. -/
theorem C9_empty_sources_open_ok (ds : FileDatasource)
    (hav : bothAvail ds)
    (hacc : ds.acc_src = []) (hgps : ds.gps_src = [])
    (hr1 : ds.acc_reader = none) (hr2 : ds.gps_reader = none) :
    ∃ d, startReading ds = .ok d ∧ d.acc_reader = some [] ∧ d.gps_reader = some [] ∧
      (∀ F, read F d = none) ∧ (∀ F, read F ds = none) := by
  cases ho : open_files ds with
  | error e =>
    rw [open_files_ok ds hav.1 hav.2] at ho
    exact absurd ho (by simp)
  | ok d =>
    have hf := open_files_fields ho
    have hdacc : d.acc_reader = some [] := by rw [hf.2.2.2.2.1, hacc]; rfl
    have hdgps : d.gps_reader = some [] := by rw [hf.2.2.2.2.2, hgps]; rfl
    have hspin : ∀ F, next_row F d .acc = none := by
      intro F
      apply next_row_spin .acc F d [] (open_files_bothAvail ho hav) hdacc rfl
      show (d.acc_src.tail).filter (fun r => !isBlankRow r) = []
      rw [hf.2.2.1, hacc]
      rfl
    have hreadd : ∀ F, read F d = none := by
      intro F
      rw [read_open F d (by rw [hdacc]; rfl) (by rw [hdgps]; rfl)]
      simp only [hspin F]
    refine ⟨d, ho, hdacc, hdgps, hreadd, ?_⟩
    intro F
    simp only [read, hr1, hr2, Option.isNone_none, Bool.or_self, if_true, ho, hspin F]

/-- C9 witness: on the zero-row files of `wds9`, `startReading` succeeds with
state `wd9`, both readers open and empty, and reads at depth 5 produce
nothing. -/
theorem C9_empty_sources_open_ok_witness :
    startReading wds9 = .ok wd9 ∧ wd9.acc_reader = some [] ∧
      wd9.gps_reader = some [] ∧ read 5 wd9 = none ∧ read 5 wds9 = none := by
  obtain ⟨d, h1, h2, h3, h4, h5⟩ := C9_empty_sources_open_ok wds9
    ⟨rfl, rfl⟩ rfl rfl rfl rfl
  have hd : d = wd9 := Except.ok.inj (by rw [← h1]; rfl)
  subst hd
  exact ⟨h1, h2, h3, h4 5, h5 5⟩

/-- C10 (amended): when the accelerometer row of a `read()` is malformed, the
GPS cursor does not stay where it was: one GPS row was consumed before
accelerometer parsing ran, and the error state carries the strictly advanced
GPS reader, so the next `read()` in the same open session fetches the
following GPS row.  (The consumed sample is skipped only until a wrap replays
the source — it is not gone forever, which is where the claim overreaches.) -/
theorem C10_gps_row_consumed_on_acc_failure (F : Nat) (ds d1 : FileDatasource)
    (a g : Row) (l rest : List Row)
    (h1 : ds.acc_reader.isNone = false) (h2 : ds.gps_reader.isNone = false)
    (ha : next_row (F + 1) ds .acc = some (.ok (a, d1)))
    (hl : readerOf d1 .gps = some l)
    (ht : takeNonBlank l = some (g, rest))
    (hbad : parse_acc_row a = none) :
    read (F + 1) ds = some (.error (.malformedRecord, setReader d1 .gps rest)) ∧
    (setReader d1 .gps rest).gps_reader = some rest ∧
    rest.length < l.length := by
  have hg : next_row (F + 1) d1 .gps = some (.ok (g, setReader d1 .gps rest)) :=
    next_row_direct hl ht
  refine ⟨?_, readerOf_setReader d1 .gps rest, takeNonBlank_shrinks ht⟩
  rw [read_open (F + 1) ds h1 h2]
  simp only [ha, hg, hbad]

/-- C10 witness: on `wds10` the non-numeric accelerometer row `[x,2,3]` makes
`read` fail while the GPS reader has already moved past `[3,4]`, down to the
single remaining row. -/
theorem C10_gps_row_consumed_on_acc_failure_witness :
    read 1 wds10 = some (.error (.malformedRecord, setReader wd10a .gps [["5","6"]])) ∧
    (setReader wd10a .gps [["5","6"]]).gps_reader = some [["5","6"]] ∧
    ([["5","6"]] : List Row).length < ([["3","4"],["5","6"]] : List Row).length :=
  C10_gps_row_consumed_on_acc_failure 0 wds10 wd10a ["x","2","3"] ["3","4"]
    [["3","4"],["5","6"]] [["5","6"]] rfl rfl rfl rfl rfl (by decide)

/-- C10 counterexample: on `dsC10` the first `read` fails on the malformed
accelerometer row after consuming the GPS row `[3,4]` (its reader is left
empty), yet the second `read` succeeds and RETURNS the GPS sample
`(3.0, 4.0)` parsed from that very row — the wrap triggered by the GPS
exhaustion replayed it — so the consumed sample is not "never returned by any
subsequent read()". -/
theorem C10_counterexample :
    runC10 = some ((.malformedRecord, some []),
      some ⟨⟨1, 2, 3⟩, ⟨float_val "3", float_val "4"⟩, ()⟩) ∧
    parse_gps_row ["3","4"] = some (float_val "3", float_val "4") := by
  constructor
  · with_unfolding_all rfl
  · with_unfolding_all rfl

end RoadVision
